import Mathlib

/-!
Verification of the vertex-layout header
`VisionProExamples/MiniBrush/MiniBrush/RealityKitDrawingApp/SolidBrushVertex.h`
from the RealityMixerVisionPro repository.

The header declares, under `#pragma pack(push, 4)`, the C struct

  struct SolidBrushVertex {
      packed_float3 position;
      packed_float3 normal;
      packed_float3 bitangent;
      float curveDistance;
      packed_half3 color;
  };

with `typedef MTLPackedFloat3 packed_float3;`,
`typedef simd_float2 packed_float2;` and
`typedef struct { _Float16 x, y, z; } packed_half3;`, followed by
`static_assert(sizeof(struct SolidBrushVertex) == 48, "ensure packing");`.

We embed the C/Metal struct-layout rules shallowly: a field is a (name,
size, natural alignment) triple, and the layout of a struct is computed by
the standard C algorithm, with `#pragma pack(n)` capping each member's
alignment at `n`.  Byte-level store/load through the computed offsets is
modelled on lists of bytes.
-/

/-- A C struct member: declared name, byte size, and natural alignment of
its type. -/
structure CField where
  fname : String
  fsize : Nat
  falign : Nat
deriving Repr, DecidableEq

/-- Round `n` up to the next multiple of `a` (C layout alignment step). -/
def alignUp (n a : Nat) : Nat := ((n + a - 1) / a) * a

/-- Effective alignment of a member of natural alignment `a` under an
optional `#pragma pack(p)` directive: `pack` caps the alignment at `p`. -/
def effAlign (pack : Option Nat) (a : Nat) : Nat :=
  match pack with
  | none => a
  | some p => min a p

/-- A computed struct layout: each field with its byte offset and size,
plus the total size and alignment of the struct. -/
structure Layout where
  fields : List (String × Nat × Nat)
  size : Nat
  align : Nat
deriving Repr, DecidableEq

/-- Offsets of the members of a struct, starting from current offset
`cur`: each member is placed at the next multiple of its effective
alignment, exactly as a C compiler lays out a non-bitfield struct. -/
def layoutFieldsAux (pack : Option Nat) : Nat → List CField → List (String × Nat × Nat)
  | _, [] => []
  | cur, f :: fs =>
    let off := alignUp cur (effAlign pack f.falign)
    (f.fname, off, f.fsize) :: layoutFieldsAux pack (off + f.fsize) fs

/-- The byte offset one past the last member (before tail padding). -/
def layoutEnd (pack : Option Nat) : Nat → List CField → Nat
  | cur, [] => cur
  | cur, f :: fs => layoutEnd pack (alignUp cur (effAlign pack f.falign) + f.fsize) fs

/-- Struct alignment: maximum effective alignment of the members (at
least 1). -/
def structAlign (pack : Option Nat) (fs : List CField) : Nat :=
  fs.foldl (fun a f => max a (effAlign pack f.falign)) 1

/-- Full C layout of a struct: member offsets, total size (the end offset
rounded up to the struct alignment, which inserts tail padding), and the
struct's own alignment. -/
def computeLayout (pack : Option Nat) (fs : List CField) : Layout :=
  { fields := layoutFieldsAux pack 0 fs
    size := alignUp (layoutEnd pack 0 fs) (structAlign pack fs)
    align := structAlign pack fs }

/-- Byte offset of the member named `nm` in a computed layout. -/
def Layout.offsetOf (l : Layout) (nm : String) : Option Nat :=
  (l.fields.find? (fun t => t.1 == nm)).map (fun t => t.2.1)

/-- Byte size of the member named `nm` in a computed layout. -/
def Layout.sizeOf (l : Layout) (nm : String) : Option Nat :=
  (l.fields.find? (fun t => t.1 == nm)).map (fun t => t.2.2)

/-! ### The types used by the header

`float` is the 32-bit IEEE float: size 4, alignment 4 on every target the
header compiles for.  `_Float16` is the 16-bit float: size 2, alignment 2.
`MTLPackedFloat3` (aliased to `packed_float3` in the header) is Metal's
packed struct of three floats: size 12, alignment 4.  `simd_float2`
(aliased to `packed_float2`) is the clang extended vector of two floats:
size 8, natural alignment 8. -/

def float_size : Nat := 4
def float_align : Nat := 4
def Float16_size : Nat := 2
def Float16_align : Nat := 2
def packed_float3_size : Nat := 12
def packed_float3_align : Nat := 4
def packed_float2_size : Nat := 8
def packed_float2_align : Nat := 8

/-- `typedef struct { _Float16 x, y, z; } packed_half3;` — declared in the
header outside the `#pragma pack` region, hence laid out with natural
alignment. -/
def packed_half3_fields : List CField :=
  [⟨"x", Float16_size, Float16_align⟩,
   ⟨"y", Float16_size, Float16_align⟩,
   ⟨"z", Float16_size, Float16_align⟩]

/-- Layout of `packed_half3` (no pack pragma in force at its declaration). -/
def packed_half3_layout : Layout := computeLayout none packed_half3_fields

/-- The members of `struct SolidBrushVertex`, in declared order, with the
commented-out `materialProperties` member absent, exactly as in the
header. -/
def SolidBrushVertex_fields : List CField :=
  [⟨"position", packed_float3_size, packed_float3_align⟩,
   ⟨"normal", packed_float3_size, packed_float3_align⟩,
   ⟨"bitangent", packed_float3_size, packed_float3_align⟩,
   ⟨"curveDistance", float_size, float_align⟩,
   ⟨"color", packed_half3_layout.size, packed_half3_layout.align⟩]

/-- Layout of `struct SolidBrushVertex` under `#pragma pack(push, 4)`. -/
def SolidBrushVertex_layout : Layout := computeLayout (some 4) SolidBrushVertex_fields

/-- The condition of the active
`static_assert(sizeof(struct SolidBrushVertex) == 48, "ensure packing");` -/
def ensure_packing : Bool := SolidBrushVertex_layout.size == 48

/-- The members of `struct SolidBrushVertex` with the commented-out
`packed_float2 materialProperties` member re-inserted at its historical
position between `bitangent` and `curveDistance`. -/
def SolidBrushVertex_withMaterialProperties_fields : List CField :=
  [⟨"position", packed_float3_size, packed_float3_align⟩,
   ⟨"normal", packed_float3_size, packed_float3_align⟩,
   ⟨"bitangent", packed_float3_size, packed_float3_align⟩,
   ⟨"materialProperties", packed_float2_size, packed_float2_align⟩,
   ⟨"curveDistance", float_size, float_align⟩,
   ⟨"color", packed_half3_layout.size, packed_half3_layout.align⟩]

/-- Layout of the historical struct, under the same `#pragma pack(push, 4)`. -/
def SolidBrushVertex_withMaterialProperties_layout : Layout :=
  computeLayout (some 4) SolidBrushVertex_withMaterialProperties_fields

/-! ### Byte-level store/load through the computed offsets

`writeBytes buf off bytes` overwrites `bytes.length` bytes of `buf`
starting at byte `off`; `readBytes buf off len` reads `len` bytes starting
at `off`.  `writeField`/`readField` go through a computed `Layout`, exactly
as CPU-side mesh generation writes a field of `struct SolidBrushVertex`
into a vertex buffer and the shader input stage reads it back. -/

def readBytes (buf : List Nat) (off len : Nat) : List Nat := (buf.drop off).take len

def writeBytes (buf : List Nat) (off : Nat) (bytes : List Nat) : List Nat :=
  buf.take off ++ bytes ++ buf.drop (off + bytes.length)

def writeField (l : Layout) (buf : List Nat) (nm : String) (bytes : List Nat) : List Nat :=
  match l.offsetOf nm with
  | none => buf
  | some off => writeBytes buf off bytes

def readField (l : Layout) (buf : List Nat) (nm : String) : List Nat :=
  match l.offsetOf nm, l.sizeOf nm with
  | some off, some sz => readBytes buf off sz
  | _, _ => []

/-- One `SolidBrushVertex` value, each field given by its raw bytes (the
embedding is agnostic to the floating-point encoding: round-tripping is a
statement about the bytes). -/
structure SolidBrushVertexBytes where
  position : List Nat
  normal : List Nat
  bitangent : List Nat
  curveDistance : List Nat
  color : List Nat

/-- Serialise a vertex into a fresh `sizeof(struct SolidBrushVertex)`-byte
buffer by writing every field at its declared offset, in declared order. -/
def storeSolidBrushVertex (v : SolidBrushVertexBytes) : List Nat :=
  writeField SolidBrushVertex_layout
    (writeField SolidBrushVertex_layout
      (writeField SolidBrushVertex_layout
        (writeField SolidBrushVertex_layout
          (writeField SolidBrushVertex_layout
            (List.replicate SolidBrushVertex_layout.size 0)
            "position" v.position)
          "normal" v.normal)
        "bitangent" v.bitangent)
      "curveDistance" v.curveDistance)
    "color" v.color

/-- `(offset, size)` intervals are pairwise non-overlapping. -/
def pairwiseDisjoint : List (Nat × Nat) → Bool
  | [] => true
  | (o, s) :: rest =>
    rest.all (fun t => decide (o + s ≤ t.1) || decide (t.1 + t.2 ≤ o)) && pairwiseDisjoint rest

/-- Consecutive members abut: each member starts exactly where its
predecessor ends (no compiler-inserted padding between members). -/
def consecutiveNoGap : List (String × Nat × Nat) → Bool
  | [] => true
  | [_] => true
  | a :: b :: rest => (a.2.1 + a.2.2 == b.2.1) && consecutiveNoGap (b :: rest)

/-- Byte offset of element `i` in a C array of a type with the given
layout: C arrays are contiguous with stride `sizeof`. -/
def arrayElemOffset (l : Layout) (i : Nat) : Nat := l.size * i

/-! ### Generic facts about byte store/load -/

lemma writeBytes_length (buf bytes : List Nat) (off : Nat)
    (h : off + bytes.length ≤ buf.length) :
    (writeBytes buf off bytes).length = buf.length := by
  simp [writeBytes]
  omega

lemma readBytes_writeBytes_same (buf bytes : List Nat) (off : Nat)
    (h : off ≤ buf.length) :
    readBytes (writeBytes buf off bytes) off bytes.length = bytes := by
  unfold readBytes writeBytes
  simp [List.drop_append_eq_append_drop, List.take_append_eq_append_take,
    List.drop_take, List.length_take, List.take_take, List.length_drop,
    Nat.min_eq_left h]

lemma readBytes_writeBytes_before (buf bytes : List Nat) (off1 off2 len2 : Nat)
    (h : off2 + len2 ≤ off1) (h1 : off1 ≤ buf.length) :
    readBytes (writeBytes buf off1 bytes) off2 len2 = readBytes buf off2 len2 := by
  unfold readBytes writeBytes
  simp [List.drop_append_eq_append_drop, List.take_append_eq_append_take,
    List.drop_take, List.length_take, List.take_take, List.length_drop,
    Nat.min_eq_left h1]
  have e1 : len2 ⊓ (off1 - off2) = len2 := by omega
  have e2 : len2 - (off1 - off2) ⊓ (buf.length - off2) = 0 := by omega
  rw [e1, e2]
  simp

lemma readBytes_writeBytes_after (buf bytes : List Nat) (off1 off2 len2 : Nat)
    (h : off1 + bytes.length ≤ off2) (h1 : off1 ≤ buf.length) :
    readBytes (writeBytes buf off1 bytes) off2 len2 = readBytes buf off2 len2 := by
  unfold readBytes writeBytes
  simp [List.drop_append_eq_append_drop, List.take_append_eq_append_take,
    List.drop_take, List.length_take, List.take_take, List.length_drop,
    List.drop_drop, Nat.min_eq_left h1]
  have e0 : len2 ⊓ (off1 - off2) = 0 := by omega
  have e3 : off1 + bytes.length + (off2 - off1 - bytes.length) = off2 := by omega
  have e4 : bytes.length ≤ off2 - off1 := by omega
  have e5 : len2 - (off1 - off2) ⊓ (buf.length - off2) - (bytes.length - (off2 - off1)) = len2 := by
    omega
  rw [e0, e3, e5, List.drop_eq_nil_of_le e4]
  simp

/-! ### The claims -/

/-- C1: `sizeof(struct SolidBrushVertex)` is exactly 48 bytes under the
declared 4-byte packing, as the active static size assertion requires. -/
theorem solidBrushVertex_sizeof_eq_48 : SolidBrushVertex_layout.size = 48 := rfl

/-- C2: under the 4-byte packing the members of `struct SolidBrushVertex`
appear in memory in declared order at byte offsets position = 0,
normal = 12, bitangent = 24, curveDistance = 36, color = 40. -/
theorem solidBrushVertex_field_offsets :
    SolidBrushVertex_layout.fields =
      [("position", 0, 12), ("normal", 12, 12), ("bitangent", 24, 12),
       ("curveDistance", 36, 4), ("color", 40, 6)] := rfl

/-- C3: each member of `struct SolidBrushVertex` has exactly its packed
byte width: the three packed 3-float vectors occupy 12 bytes each (not
rounded to 16), `curveDistance` occupies 4 bytes, and `color` — a packed
vector of three 16-bit floats — occupies 6 bytes, as computed from its own
member layout. -/
theorem solidBrushVertex_field_widths :
    SolidBrushVertex_layout.sizeOf "position" = some 12 ∧
    SolidBrushVertex_layout.sizeOf "normal" = some 12 ∧
    SolidBrushVertex_layout.sizeOf "bitangent" = some 12 ∧
    SolidBrushVertex_layout.sizeOf "curveDistance" = some 4 ∧
    SolidBrushVertex_layout.sizeOf "color" = some 6 ∧
    packed_half3_layout.size = 3 * Float16_size :=
  ⟨rfl, rfl, rfl, rfl, rfl, rfl⟩

/-- C4: the condition of the compile-time assertion
`static_assert(sizeof(struct SolidBrushVertex) == 48, "ensure packing")`
holds, so the build succeeds and no failure can surface at runtime. -/
theorem solidBrushVertex_static_assert_holds : ensure_packing = true := rfl

/-- C5: re-inserting the disabled `packed_float2 materialProperties`
member (8 bytes) at its commented-out position between `bitangent` and
`curveDistance`, under the same 4-byte packing, makes the struct size
exactly 56 bytes — matching the commented-out historical assertion. -/
theorem solidBrushVertex_withMaterialProperties_sizeof_eq_56 :
    SolidBrushVertex_withMaterialProperties_layout.size = 56 ∧
    SolidBrushVertex_withMaterialProperties_layout.offsetOf "materialProperties" = some 36 ∧
    SolidBrushVertex_withMaterialProperties_layout.sizeOf "materialProperties" = some 8 :=
  ⟨rfl, rfl, rfl⟩

/-- C6: for every vertex value, writing every field at its declared byte
offset into a 48-byte buffer and reading each field back from the same
offset yields bit-identical bytes, and no two fields' byte ranges
overlap. -/
theorem solidBrushVertex_roundtrip (v : SolidBrushVertexBytes)
    (hp : v.position.length = 12) (hn : v.normal.length = 12)
    (hb : v.bitangent.length = 12) (hc : v.curveDistance.length = 4)
    (hcol : v.color.length = 6) :
    readField SolidBrushVertex_layout (storeSolidBrushVertex v) "position" = v.position ∧
    readField SolidBrushVertex_layout (storeSolidBrushVertex v) "normal" = v.normal ∧
    readField SolidBrushVertex_layout (storeSolidBrushVertex v) "bitangent" = v.bitangent ∧
    readField SolidBrushVertex_layout (storeSolidBrushVertex v) "curveDistance" = v.curveDistance ∧
    readField SolidBrushVertex_layout (storeSolidBrushVertex v) "color" = v.color ∧
    pairwiseDisjoint (SolidBrushVertex_layout.fields.map (fun t => (t.2.1, t.2.2))) = true := by
  have hstore : storeSolidBrushVertex v =
      writeBytes (writeBytes (writeBytes (writeBytes
        (writeBytes (List.replicate 48 0) 0 v.position) 12 v.normal)
        24 v.bitangent) 36 v.curveDistance) 40 v.color := rfl
  have hrp : ∀ buf, readField SolidBrushVertex_layout buf "position" = readBytes buf 0 12 :=
    fun _ => rfl
  have hrn : ∀ buf, readField SolidBrushVertex_layout buf "normal" = readBytes buf 12 12 :=
    fun _ => rfl
  have hrb : ∀ buf, readField SolidBrushVertex_layout buf "bitangent" = readBytes buf 24 12 :=
    fun _ => rfl
  have hrc : ∀ buf, readField SolidBrushVertex_layout buf "curveDistance" = readBytes buf 36 4 :=
    fun _ => rfl
  have hrcol : ∀ buf, readField SolidBrushVertex_layout buf "color" = readBytes buf 40 6 :=
    fun _ => rfl
  set b0 : List Nat := List.replicate 48 0 with hb0e
  set b1 : List Nat := writeBytes b0 0 v.position with hb1e
  set b2 : List Nat := writeBytes b1 12 v.normal with hb2e
  set b3 : List Nat := writeBytes b2 24 v.bitangent with hb3e
  set b4 : List Nat := writeBytes b3 36 v.curveDistance with hb4e
  set b5 : List Nat := writeBytes b4 40 v.color with hb5e
  have l0 : b0.length = 48 := by rw [hb0e]; simp
  have l1 : b1.length = 48 := by
    rw [hb1e, writeBytes_length b0 v.position 0 (by rw [hp, l0]; omega)]; exact l0
  have l2 : b2.length = 48 := by
    rw [hb2e, writeBytes_length b1 v.normal 12 (by rw [hn, l1]; omega)]; exact l1
  have l3 : b3.length = 48 := by
    rw [hb3e, writeBytes_length b2 v.bitangent 24 (by rw [hb, l2]; omega)]; exact l2
  have l4 : b4.length = 48 := by
    rw [hb4e, writeBytes_length b3 v.curveDistance 36 (by rw [hc, l3]; omega)]; exact l3
  refine ⟨?_, ?_, ?_, ?_, ?_, by decide⟩
  · rw [hrp, hstore,
      readBytes_writeBytes_before b4 v.color 40 0 12 (by omega) (by rw [l4]; omega),
      hb4e, readBytes_writeBytes_before b3 v.curveDistance 36 0 12 (by omega) (by rw [l3]; omega),
      hb3e, readBytes_writeBytes_before b2 v.bitangent 24 0 12 (by omega) (by rw [l2]; omega),
      hb2e, readBytes_writeBytes_before b1 v.normal 12 0 12 (by omega) (by rw [l1]; omega)]
    have hs := readBytes_writeBytes_same b0 v.position 0 (by rw [l0]; omega)
    rw [hp] at hs
    rw [← hb1e] at hs
    exact hs
  · rw [hrn, hstore,
      readBytes_writeBytes_before b4 v.color 40 12 12 (by omega) (by rw [l4]; omega),
      hb4e, readBytes_writeBytes_before b3 v.curveDistance 36 12 12 (by omega) (by rw [l3]; omega),
      hb3e, readBytes_writeBytes_before b2 v.bitangent 24 12 12 (by omega) (by rw [l2]; omega)]
    have hs := readBytes_writeBytes_same b1 v.normal 12 (by rw [l1]; omega)
    rw [hn] at hs
    rw [← hb2e] at hs
    exact hs
  · rw [hrb, hstore,
      readBytes_writeBytes_before b4 v.color 40 24 12 (by omega) (by rw [l4]; omega),
      hb4e, readBytes_writeBytes_before b3 v.curveDistance 36 24 12 (by omega) (by rw [l3]; omega)]
    have hs := readBytes_writeBytes_same b2 v.bitangent 24 (by rw [l2]; omega)
    rw [hb] at hs
    rw [← hb3e] at hs
    exact hs
  · rw [hrc, hstore,
      readBytes_writeBytes_before b4 v.color 40 36 4 (by omega) (by rw [l4]; omega)]
    have hs := readBytes_writeBytes_same b3 v.curveDistance 36 (by rw [l3]; omega)
    rw [hc] at hs
    rw [← hb4e] at hs
    exact hs
  · rw [hrcol, hstore]
    have hs := readBytes_writeBytes_same b4 v.color 40 (by rw [l4]; omega)
    rw [hcol] at hs
    rw [← hb5e] at hs
    exact hs

/-- C6 witness: the round-trip theorem applied at a concrete vertex. -/
theorem solidBrushVertex_roundtrip_witness :
    readField SolidBrushVertex_layout
      (storeSolidBrushVertex ⟨List.range 12, List.replicate 12 1, List.replicate 12 2,
        [9, 9, 9, 9], [1, 2, 3, 4, 5, 6]⟩) "position" = List.range 12 ∧
    readField SolidBrushVertex_layout
      (storeSolidBrushVertex ⟨List.range 12, List.replicate 12 1, List.replicate 12 2,
        [9, 9, 9, 9], [1, 2, 3, 4, 5, 6]⟩) "normal" = List.replicate 12 1 ∧
    readField SolidBrushVertex_layout
      (storeSolidBrushVertex ⟨List.range 12, List.replicate 12 1, List.replicate 12 2,
        [9, 9, 9, 9], [1, 2, 3, 4, 5, 6]⟩) "bitangent" = List.replicate 12 2 ∧
    readField SolidBrushVertex_layout
      (storeSolidBrushVertex ⟨List.range 12, List.replicate 12 1, List.replicate 12 2,
        [9, 9, 9, 9], [1, 2, 3, 4, 5, 6]⟩) "curveDistance" = [9, 9, 9, 9] ∧
    readField SolidBrushVertex_layout
      (storeSolidBrushVertex ⟨List.range 12, List.replicate 12 1, List.replicate 12 2,
        [9, 9, 9, 9], [1, 2, 3, 4, 5, 6]⟩) "color" = [1, 2, 3, 4, 5, 6] ∧
    pairwiseDisjoint (SolidBrushVertex_layout.fields.map (fun t => (t.2.1, t.2.2))) = true :=
  solidBrushVertex_roundtrip
    ⟨List.range 12, List.replicate 12 1, List.replicate 12 2, [9, 9, 9, 9], [1, 2, 3, 4, 5, 6]⟩
    (by decide) (by decide) (by decide) (by decide) (by decide)

/-- C7: the 4-byte packing governs the whole struct: the alignment of
`struct SolidBrushVertex` is 4, every member offset is a multiple of 4,
and every member starts exactly where its predecessor ends (no
compiler-inserted padding between consecutive members). -/
theorem solidBrushVertex_packing_alignment :
    SolidBrushVertex_layout.align = 4 ∧
    (SolidBrushVertex_layout.fields.all (fun t => t.2.1 % 4 == 0)) = true ∧
    consecutiveNoGap SolidBrushVertex_layout.fields = true :=
  ⟨rfl, by decide, by decide⟩

/-- C8: the declared member widths sum to 46 = 12+12+12+4+6 bytes, the
members end at byte 46, yet `sizeof` is 48: the struct carries exactly 2
bytes of tail padding, and no member's bytes reach offsets 46 or 47. -/
theorem solidBrushVertex_tail_padding :
    (SolidBrushVertex_fields.map CField.fsize).sum = 46 ∧
    layoutEnd (some 4) 0 SolidBrushVertex_fields = 46 ∧
    SolidBrushVertex_layout.size = 46 + 2 ∧
    (SolidBrushVertex_layout.fields.all (fun t => decide (t.2.1 + t.2.2 ≤ 46))) = true :=
  ⟨rfl, rfl, rfl, by decide⟩

/-- C9: in a contiguous C array of `struct SolidBrushVertex`, element `i`
begins at byte offset `48 * i` for every `i`: the array stride equals
`sizeof(struct SolidBrushVertex)`, with no padding between elements beyond
the tail padding already inside each element. -/
theorem solidBrushVertex_array_stride :
    ∀ i : Nat,
      arrayElemOffset SolidBrushVertex_layout i = 48 * i ∧
      arrayElemOffset SolidBrushVertex_layout (i + 1) - arrayElemOffset SolidBrushVertex_layout i
        = SolidBrushVertex_layout.size := by
  intro i
  refine ⟨rfl, ?_⟩
  show 48 * (i + 1) - 48 * i = 48
  omega

/-- C10: the locally defined `packed_half3` struct is padding-free: its
`_Float16` members `x`, `y`, `z` lie at byte offsets 0, 2, 4, its size is
exactly 6 bytes and its alignment is 2 bytes. -/
theorem packed_half3_layout_spec :
    packed_half3_layout.fields = [("x", 0, 2), ("y", 2, 2), ("z", 4, 2)] ∧
    packed_half3_layout.size = 6 ∧
    packed_half3_layout.align = 2 ∧
    consecutiveNoGap packed_half3_layout.fields = true :=
  ⟨rfl, rfl, rfl, by decide⟩
